import Mathlib

/-!
Shallow embedding of the simulation kernel of `sims_ocs`
(`lsst/sims/ocs/kernel/simulator.py` and `lsst/sims/ocs/kernel/sequencer.py`),
together with theorems settling the specification claims about it.

Timestamps and durations are modelled as exact rationals; message-bus
interaction is modelled by explicit lists of poll results carrying the
real-clock time at which each poll returned.
-/

namespace SimsOcs

/-- Modelled from the spec (§4.1 Simulated Clock): the repository's
`TimeHandler` is not under `src/`; `update_time(delta, "seconds")` adds the
duration to the current timestamp.  The `advances` field is a trace of the
deltas passed to `update_time`, used to state "exactly two clock advances, in
order" properties; it changes nothing about the timestamp arithmetic. -/
structure TimeHandler where
  current_timestamp : ℚ
  advances : List ℚ

/-- Modelled from the spec: `update_time` adds `delta` seconds to the current
timestamp (and records the delta in the trace). -/
def TimeHandler.update_time (th : TimeHandler) (delta : ℚ) : TimeHandler :=
  { current_timestamp := th.current_timestamp + delta
    advances := th.advances ++ [delta] }

/-- The `scheduler_targetC` telemetry topic as used by the kernel code:
identifying fields consumed by `Sequencer.observe_target`, plus the
per-proposal arrays consumed by `Simulator.gather_proposal_history`. -/
structure Target where
  targetId : ℤ
  fieldId : ℤ
  filter : String
  ra : ℚ
  dec : ℚ
  num_exposures : ℤ
  num_proposals : ℤ
  proposal_Ids : ℕ → ℤ
  proposal_values : ℕ → ℚ
  proposal_needs : ℕ → ℚ
  proposal_bonuses : ℕ → ℚ
  proposal_boosts : ℕ → ℚ

/-- The `scheduler_interestedProposalC` telemetry topic: per-proposal arrays
plus the owning observation id. -/
structure InterestedProposal where
  observationId : ℤ
  num_proposals : ℤ
  proposal_Ids : ℕ → ℤ
  proposal_values : ℕ → ℚ
  proposal_needs : ℕ → ℚ
  proposal_bonuses : ℕ → ℚ
  proposal_boosts : ℕ → ℚ

/-- The observation telemetry topic filled by `Sequencer.observe_target`
(identifiers, post-slew start time, copied target fields) and later stamped by
the driver with the night index and environment values. -/
structure Observation where
  observationId : ℕ
  observationTime : ℚ
  targetId : ℤ
  fieldId : ℤ
  filter : String
  ra : ℚ
  dec : ℚ
  num_exposures : ℤ
  night : ℕ
  cloud : ℚ
  seeing_fwhm_500 : ℚ
  seeing_fwhm_geom : ℚ
  seeing_fwhm_eff : ℚ
deriving DecidableEq

/-- A default-initialised observation topic (all fields zeroed, as a freshly
allocated SAL struct). -/
def Observation.zero : Observation :=
  { observationId := 0, observationTime := 0, targetId := 0, fieldId := 0
    filter := "", ra := 0, dec := 0, num_exposures := 0, night := 0
    cloud := 0, seeing_fwhm_500 := 0, seeing_fwhm_geom := 0
    seeing_fwhm_eff := 0 }

/-- State of `kernel/sequencer.py`'s `Sequencer`: counters, the observation
topic it fills in place, and the fixed slew/visit durations set in
`__init__` (`self.slew_time = (6.0, "seconds")`,
`self.visit_time = (34.0, "seconds")`). -/
structure Sequencer where
  targets_received : ℕ
  observations_made : ℕ
  observation : Observation
  slew_time : ℚ
  visit_time : ℚ

/-- Python `Sequencer.__init__`: zero counters and the hard-coded slew and visit
durations. -/
def Sequencer.init : Sequencer :=
  { targets_received := 0, observations_made := 0
    observation := Observation.zero, slew_time := 6, visit_time := 34 }

/-- Embeds `Sequencer.observe_target(target, th)` from `kernel/sequencer.py`:
the target may be absent (`None` in Python).  With a null target the very
first statement of the body, `target.targetId` (line 56), raises
`AttributeError` before any counter or clock mutation, so the error branch
returns the time handler unchanged.  With a real target the body increments
`targets_received`, advances the clock by the slew time, fills the observation
topic (stamping the post-slew timestamp as `observationTime`), advances the
clock by the visit time, increments `observations_made`, and returns the
observation. -/
def Sequencer.observe_target (seq : Sequencer) (target : Option Target)
    (th : TimeHandler) :
    TimeHandler × Except String (Sequencer × Observation) :=
  match target with
  | none => (th, Except.error "AttributeError: NoneType has no attribute targetId")
  | some t =>
    let th1 := th.update_time seq.slew_time
    let obs : Observation :=
      { observationId := seq.observations_made
        observationTime := th1.current_timestamp
        targetId := t.targetId
        fieldId := t.fieldId
        filter := t.filter
        ra := t.ra
        dec := t.dec
        num_exposures := t.num_exposures
        night := 0, cloud := 0, seeing_fwhm_500 := 0
        seeing_fwhm_geom := 0, seeing_fwhm_eff := 0 }
    let th2 := th1.update_time seq.visit_time
    (th2, Except.ok
      ({ seq with targets_received := seq.targets_received + 1
                  observation := obs
                  observations_made := seq.observations_made + 1 }, obs))

/-- Row of the `target_proposal_history` table: counter, per-proposal scoring
fields, owning target id (`TargetProposalHistory` in `kernel/__init__`). -/
structure TargetProposalHistory where
  propHistId : ℕ
  proposal_id : ℤ
  proposal_value : ℚ
  proposal_need : ℚ
  proposal_bonus : ℚ
  proposal_boost : ℚ
  target_id : ℤ
deriving DecidableEq

/-- Row of the `observation_proposal_history` table: counter, per-proposal
scoring fields, owning observation id (`ObsProposalHistory`). -/
structure ObsProposalHistory where
  propHistId : ℕ
  proposal_id : ℤ
  proposal_value : ℚ
  proposal_need : ℚ
  proposal_bonus : ℚ
  proposal_boost : ℚ
  observation_id : ℤ
deriving DecidableEq

/-- A row handed to `db.append_data`.  Slew and exposure sub-records come from
the observatory model, which is an external collaborator; their payloads are
opaque here. -/
inductive Row
  | targetHist (t : Target)
  | obsHist (o : Observation)
  | targetProp (r : TargetProposalHistory)
  | obsProp (r : ObsProposalHistory)
  | slewRow (tag : String) (payload : ℤ)
  | exposureRow (tag : String) (payload : ℤ)

/-- The driver state owned by `Simulator`: the time handler, the end-of-night
boundary, the per-night append buffer of the database, the batches flushed so
far by `db.write`, and the two proposal-history counters initialised to 1 in
`Simulator.__init__` (lines 83-84). -/
structure SimState where
  time_handler : TimeHandler
  end_of_night : ℚ
  db_buffer : List (String × Row)
  flushed : List (List (String × Row))
  target_proposals_counted : ℕ
  observation_proposals_counted : ℕ

/-- Modelled from the spec: `SECONDS_IN_MINUTE` lives in
`utilities/constants.py`, which is not under `src/`; the spec calls it
"a fixed one-minute margin". -/
def SECONDS_IN_MINUTE : ℚ := 60

/-- The topic argument of `Simulator.gather_proposal_history`: either the
current target topic or the interested-proposal topic. -/
inductive PHTopic
  | target (t : Target)
  | observation (ip : InterestedProposal)

/-- The rows built by the `phtype == "observation"` loop of
`gather_proposal_history`: entry `i` is appended with the current counter
value, which is then incremented, for `num_proposals` iterations. -/
def obsPropRows (topic : InterestedProposal) (ctr i : ℕ) : ℕ → List (String × Row)
  | 0 => []
  | n + 1 =>
    ("observation_proposal_history",
      Row.obsProp
        { propHistId := ctr
          proposal_id := topic.proposal_Ids i
          proposal_value := topic.proposal_values i
          proposal_need := topic.proposal_needs i
          proposal_bonus := topic.proposal_bonuses i
          proposal_boost := topic.proposal_boosts i
          observation_id := topic.observationId }) ::
      obsPropRows topic (ctr + 1) (i + 1) n

/-- The rows built by the `phtype == "target"` loop of
`gather_proposal_history`. -/
def targetPropRows (topic : Target) (ctr i : ℕ) : ℕ → List (String × Row)
  | 0 => []
  | n + 1 =>
    ("target_proposal_history",
      Row.targetProp
        { propHistId := ctr
          proposal_id := topic.proposal_Ids i
          proposal_value := topic.proposal_values i
          proposal_need := topic.proposal_needs i
          proposal_bonus := topic.proposal_bonuses i
          proposal_boost := topic.proposal_boosts i
          target_id := topic.targetId }) ::
      targetPropRows topic (ctr + 1) (i + 1) n

/-- Embeds `Simulator.gather_proposal_history(phtype, topic)` (simulator.py lines
107-138): for each of the topic's `num_proposals` entries, append one history
row keyed by the stream's counter and increment that counter.  Python's
`range` of a negative count is empty, hence `Int.toNat`. -/
def gather_proposal_history (phtype : String) (topic : PHTopic) (s : SimState) :
    SimState :=
  let s1 :=
    match topic with
    | PHTopic.observation ip =>
      if phtype = "observation" then
        { s with
            db_buffer := s.db_buffer ++
              obsPropRows ip s.observation_proposals_counted 0 ip.num_proposals.toNat
            observation_proposals_counted :=
              s.observation_proposals_counted + ip.num_proposals.toNat }
      else s
    | PHTopic.target _ => s
  match topic with
  | PHTopic.target t =>
    if phtype = "target" then
      { s1 with
          db_buffer := s1.db_buffer ++
            targetPropRows t s1.target_proposals_counted 0 t.num_proposals.toNat
          target_proposals_counted :=
            s1.target_proposals_counted + t.num_proposals.toNat }
    else s1
  | PHTopic.observation _ => s1

/-- One return of `self.sal.manager.getNextSample_target(self.target)`
inside the polling loop, tagged with the real-clock time `tf` at which the
poll came back.  On `rcode = 0` the sample `msg` is copied into the topic
struct; otherwise the struct keeps its previous contents. -/
structure TargetPoll where
  rcode : ℤ
  msg : Target
  tf : ℚ

/-- Outcome of the target-acquisition loop, with the index of the poll at
which the loop broke or raised. -/
inductive TargetOutcome
  | accepted (n : ℕ) (t : Target)
  | timedOut (n : ℕ)
  | pending (t : Target)
  | skipped (t : Target)

/-- Shift the poll index of an outcome by one (used when the loop consumes a
poll and recurses). -/
def TargetOutcome.bump : TargetOutcome → TargetOutcome
  | accepted n t => accepted (n + 1) t
  | timedOut n => timedOut (n + 1)
  | pending t => pending t
  | skipped t => skipped t

/-- The `while self.wait_for_scheduler` loop of
`Simulator.get_target_from_scheduler` (simulator.py lines 146-154): break on
`rcode == 0 and self.target.num_exposures != 0`; otherwise raise
`SchedulerTimeoutError` when more than 60 real-clock seconds have passed since
`lasttime`; otherwise poll again.  An exhausted poll list means the loop is
still spinning. -/
def getTargetLoop (lasttime : ℚ) (tgt : Target) :
    List TargetPoll → TargetOutcome
  | [] => TargetOutcome.pending tgt
  | p :: ps =>
    let tgt1 := if p.rcode = 0 then p.msg else tgt
    if p.rcode = 0 ∧ tgt1.num_exposures ≠ 0 then TargetOutcome.accepted 0 tgt1
    else if 60 < p.tf - lasttime then TargetOutcome.timedOut 0
    else (getTargetLoop lasttime tgt1 ps).bump

/-- Embeds `Simulator.get_target_from_scheduler`: with `wait_for_scheduler` false the
loop body never runs and the function returns at once. -/
def get_target_from_scheduler (wait_for_scheduler : Bool) (lasttime : ℚ)
    (tgt : Target) (polls : List TargetPoll) : TargetOutcome :=
  if wait_for_scheduler then getTargetLoop lasttime tgt polls
  else TargetOutcome.skipped tgt

/-- One return of `getNextSample_interestedProposal`, tagged with the
real-clock time of the poll. -/
structure InterestPoll where
  rcode : ℤ
  msg : InterestedProposal
  tf : ℚ

/-- Outcome of the interest-feedback loop, carrying the contents of the
`interested_proposal` topic struct when the loop ends.  There is no raising
outcome: the loop's timeout branch only logs and breaks. -/
inductive InterestOutcome
  | received (ip : InterestedProposal)
  | timedOut (ip : InterestedProposal)
  | pending (ip : InterestedProposal)

/-- The interest-feedback polling loop of `Simulator.run` (simulator.py lines
256-267): break on `rcode == 0 and num_proposals >= 0`; otherwise break
(without raising) when more than 5 real-clock seconds have passed since
`lastconfigtime`; otherwise poll again. -/
def interestLoop (lastconfigtime : ℚ) (ip : InterestedProposal) :
    List InterestPoll → InterestOutcome
  | [] => InterestOutcome.pending ip
  | p :: ps =>
    let ip1 := if p.rcode = 0 then p.msg else ip
    if p.rcode = 0 ∧ 0 ≤ ip1.num_proposals then InterestOutcome.received ip1
    else if 5 < p.tf - lastconfigtime then InterestOutcome.timedOut ip1
    else interestLoop lastconfigtime ip1 ps

/-- The `scheduler_fieldC` topic fields collected at start-up. -/
structure FieldTopic where
  ID : ℤ
  fov : ℚ
  ra : ℚ
  dec : ℚ
  gl : ℚ
  gb : ℚ
  el : ℚ
  eb : ℚ
deriving DecidableEq

/-- One return of `getNextSample_field`. -/
structure FieldPoll where
  rcode : ℤ
  msg : FieldTopic
deriving DecidableEq

/-- The start-up field-retrieval loop of `Simulator.run` (simulator.py lines
194-208): skip messages with id 0; on a successfully received sentinel id -1,
break if the `end_fields` flag is already set, else set it and continue; any
other message is added to the collected field set.  The flag is never reset.
An exhausted poll list means the loop is still spinning (`none`). -/
def fieldLoop (fld : FieldTopic) (field_set : List FieldTopic)
    (end_fields : Bool) : List FieldPoll → Option (List FieldTopic)
  | [] => none
  | p :: ps =>
    let fld1 := if p.rcode = 0 then p.msg else fld
    if fld1.ID = 0 then fieldLoop fld1 field_set end_fields ps
    else if p.rcode = 0 ∧ fld1.ID = -1 then
      if end_fields then some field_set
      else fieldLoop fld1 field_set true ps
    else fieldLoop fld1 (field_set ++ [fld1]) end_fields ps

/-- Embeds `Simulator.start_night(night)` (simulator.py lines 339-386), after the sky
model has produced `set_timestamp` and `rise_timestamp`: reposition the clock
by the absolute delta to the sunset timestamp, record the end-of-night
boundary, clear the per-night buffer (`db.clear_data`), and if
`dh.get_downtime(night)` is non-zero advance the clock by the absolute delta
to the end-of-night boundary plus `SECONDS_IN_MINUTE`.  (The downtime handler
and sky model are external collaborators; their outputs are parameters.) -/
def start_night (s : SimState) (set_timestamp rise_timestamp : ℚ)
    (down_days : ℕ) : SimState :=
  let delta := |s.time_handler.current_timestamp - set_timestamp|
  let th1 := s.time_handler.update_time delta
  let s1 := { s with time_handler := th1, end_of_night := rise_timestamp
                     db_buffer := [] }
  if down_days ≠ 0 then
    let delta2 := |th1.current_timestamp - rise_timestamp| + SECONDS_IN_MINUTE
    { s1 with time_handler := th1.update_time delta2 }
  else s1

/-- Guard of the per-night `while` loop of `Simulator.run` (line 220):
the exposure-cycle body — whose first actions are the telemetry publishes and
the target-acquisition poll — executes at least once iff this holds on entry
to the night. -/
def exposureCycleEntered (s : SimState) : Prop :=
  s.time_handler.current_timestamp < s.end_of_night

instance (s : SimState) : Decidable (exposureCycleEntered s) := by
  unfold exposureCycleEntered; infer_instance

/-- Embeds `Simulator.end_night`: `db.write()` flushes the per-night buffer as one
batch (the sequencer's per-night reset touches no counter modelled here). -/
def end_night (s : SimState) : SimState :=
  { s with flushed := s.flushed ++ [s.db_buffer] }

/-- The persistence step of one exposure cycle (simulator.py lines 269-287):
only when `wait_for_scheduler` is set and the observation's target id is not
the sentinel -1, append the target row, the observation row, the proposal
history of both streams, and the slew and exposure sub-records to the
per-night buffer; otherwise nothing is appended. -/
def persistCycle (s : SimState) (wait_for_scheduler : Bool) (target : Target)
    (observation : Observation) (interested_proposal : InterestedProposal)
    (slew_rows exposure_rows : List (String × Row)) : SimState :=
  if wait_for_scheduler = true ∧ observation.targetId ≠ -1 then
    let s1 := { s with db_buffer := s.db_buffer ++
      [("target_history", Row.targetHist target),
       ("observation_history", Row.obsHist observation)] }
    let s2 := gather_proposal_history "target" (PHTopic.target target) s1
    let s3 := gather_proposal_history "observation"
      (PHTopic.observation interested_proposal) s2
    { s3 with db_buffer := s3.db_buffer ++ slew_rows ++ exposure_rows }
  else s

/-- The counter values of the target-proposal-history rows in a row list. -/
def targetPropCounters (rows : List (String × Row)) : List ℕ :=
  rows.filterMap fun e =>
    match e.2 with
    | Row.targetProp r => some r.propHistId
    | _ => none

/-- The counter values of the observation-proposal-history rows in a row
list. -/
def obsPropCounters (rows : List (String × Row)) : List ℕ :=
  rows.filterMap fun e =>
    match e.2 with
    | Row.obsProp r => some r.propHistId
    | _ => none

/-- A concrete accepted target: id 3, two exposures, no proposal entries. -/
def tgtB : Target :=
  { targetId := 3, fieldId := 2, filter := "r", ra := 1, dec := 2
    num_exposures := 2, num_proposals := 0
    proposal_Ids := fun _ => 0, proposal_values := fun _ => 0
    proposal_needs := fun _ => 0, proposal_bonuses := fun _ => 0
    proposal_boosts := fun _ => 0 }

/-- A concrete target carrying one proposal entry. -/
def tgtP : Target :=
  { tgtB with targetId := 4, num_proposals := 1
              proposal_Ids := fun _ => 7 }

/-- A freshly zeroed target topic struct (no exposures, hence never
acceptable). -/
def tgtZero : Target :=
  { tgtB with targetId := 0, fieldId := 0, filter := "", ra := 0, dec := 0
              num_exposures := 0 }

/-- A time handler at timestamp 0 with an empty advance trace. -/
def th0 : TimeHandler := { current_timestamp := 0, advances := [] }

/-- A concrete driver state: fresh counters (both 1, as in
`Simulator.__init__`), empty buffers. -/
def simState0 : SimState :=
  { time_handler := th0, end_of_night := 0, db_buffer := [], flushed := []
    target_proposals_counted := 1, observation_proposals_counted := 1 }

/-- A concrete interested-proposal message with no entries. -/
def ipB : InterestedProposal :=
  { observationId := 10, num_proposals := 0
    proposal_Ids := fun _ => 0, proposal_values := fun _ => 0
    proposal_needs := fun _ => 0, proposal_bonuses := fun _ => 0
    proposal_boosts := fun _ => 0 }

/-- A stale interested-proposal message holding one entry (as left in the
topic struct by an earlier successful receive). -/
def ipStale : InterestedProposal := { ipB with num_proposals := 1 }

/-- The observation produced by `Sequencer.init` observing `tgtB` from
timestamp 0: post-slew start time 6, copied target fields. -/
def obsB : Observation :=
  { observationId := 0, observationTime := 6, targetId := 3, fieldId := 2
    filter := "r", ra := 1, dec := 2, num_exposures := 2, night := 0
    cloud := 0, seeing_fwhm_500 := 0, seeing_fwhm_geom := 0
    seeing_fwhm_eff := 0 }

/-- A field message with the given id and zeroed coordinates. -/
def fldMsg (i : ℤ) : FieldTopic :=
  { ID := i, fov := 0, ra := 0, dec := 0, gl := 0, gb := 0, el := 0, eb := 0 }

/-- A poll that fails (rcode 1) and returns 61 real-clock seconds after the
loop started. -/
def pollTimeout : TargetPoll := { rcode := 1, msg := tgtB, tf := 61 }

/-- A successful poll delivering the acceptable target `tgtB`. -/
def pollAccept : TargetPoll := { rcode := 0, msg := tgtB, tf := 0 }

/-- The concrete poll sequence sentinel, field 7, sentinel — all successfully
received, with no two consecutive sentinel ids. -/
def fpolls : List FieldPoll :=
  [⟨0, fldMsg (-1)⟩, ⟨0, fldMsg 7⟩, ⟨0, fldMsg (-1)⟩]

/-- C3: every `observe_target` call on a non-null target advances the
simulated clock by exactly slew duration + visit duration, through exactly two
advances in the order slew-then-visit; the observation start time is the
post-slew (pre-visit) timestamp; and a second call on the resulting clock
yields a strictly later observation start time. -/
theorem observe_target_advances (seq : Sequencer) (t t2 : Target)
    (th : TimeHandler) (hs : seq.slew_time = 6) (hv : seq.visit_time = 34) :
    ((seq.observe_target (some t) th).1.current_timestamp
        = th.current_timestamp + (seq.slew_time + seq.visit_time))
    ∧ ((seq.observe_target (some t) th).1.advances
        = th.advances ++ [seq.slew_time, seq.visit_time])
    ∧ ∀ seq1 obs1, (seq.observe_target (some t) th).2 = Except.ok (seq1, obs1) →
        obs1.observationTime = th.current_timestamp + seq.slew_time
        ∧ ∀ seq2 obs2,
            (seq1.observe_target (some t2) (seq.observe_target (some t) th).1).2
              = Except.ok (seq2, obs2) →
            obs1.observationTime < obs2.observationTime := by
  refine ⟨?_, ?_, ?_⟩
  · simp [Sequencer.observe_target, TimeHandler.update_time, add_assoc]
  · simp [Sequencer.observe_target, TimeHandler.update_time]
  · intro seq1 obs1 h1
    simp only [Sequencer.observe_target, Except.ok.injEq, Prod.mk.injEq] at h1
    obtain ⟨hseq1, hobs1⟩ := h1
    constructor
    · rw [← hobs1]
      simp [TimeHandler.update_time]
    · intro seq2 obs2 h2
      simp only [Sequencer.observe_target, Except.ok.injEq, Prod.mk.injEq] at h2
      obtain ⟨hseq2, hobs2⟩ := h2
      rw [← hobs1, ← hobs2, ← hseq1]
      simp only [TimeHandler.update_time]
      rw [hs, hv]
      linarith [th.current_timestamp]

/-- Witness for C3 at a concrete sequencer, target and clock. -/
theorem observe_target_advances_witness :
    ((Sequencer.init.observe_target (some tgtB) th0).1.current_timestamp
        = th0.current_timestamp
            + (Sequencer.init.slew_time + Sequencer.init.visit_time))
    ∧ ((Sequencer.init.observe_target (some tgtB) th0).1.advances
        = th0.advances ++ [Sequencer.init.slew_time, Sequencer.init.visit_time])
    ∧ ∀ seq1 obs1,
        (Sequencer.init.observe_target (some tgtB) th0).2
          = Except.ok (seq1, obs1) →
        obs1.observationTime = th0.current_timestamp + Sequencer.init.slew_time
        ∧ ∀ seq2 obs2,
            (seq1.observe_target (some tgtB)
              (Sequencer.init.observe_target (some tgtB) th0).1).2
              = Except.ok (seq2, obs2) →
            obs1.observationTime < obs2.observationTime :=
  observe_target_advances Sequencer.init tgtB tgtB th0 rfl rfl

/-- C8: `observe_target` with a null target fails loudly with an error while
returning the time handler unchanged — no clock advance happens before the
failure. -/
theorem observe_target_null_target (seq : Sequencer) (th : TimeHandler) :
    seq.observe_target none th
      = (th, Except.error "AttributeError: NoneType has no attribute targetId") :=
  rfl

lemma getTargetLoop_timedOut_elapsed (lasttime : ℚ) :
    ∀ (polls : List TargetPoll) (tgt : Target) (n : ℕ),
      getTargetLoop lasttime tgt polls = TargetOutcome.timedOut n →
      ∃ p, polls[n]? = some p ∧ 60 < p.tf - lasttime := by
  intro polls
  induction polls with
  | nil =>
    intro tgt n h
    exact TargetOutcome.noConfusion h
  | cons p ps ih =>
    intro tgt n h
    simp only [getTargetLoop] at h
    generalize (if p.rcode = 0 then p.msg else tgt) = tgt1 at h
    split at h
    · exact TargetOutcome.noConfusion h
    · split at h
      next htime =>
        obtain rfl : (0 : ℕ) = n := by injection h
        exact ⟨p, by simp, htime⟩
      next htime =>
        cases hres : getTargetLoop lasttime tgt1 ps with
        | accepted m s =>
          rw [hres] at h
          exact TargetOutcome.noConfusion h
        | pending s =>
          rw [hres] at h
          exact TargetOutcome.noConfusion h
        | skipped s =>
          rw [hres] at h
          exact TargetOutcome.noConfusion h
        | timedOut m =>
          rw [hres] at h
          simp only [TargetOutcome.bump] at h
          obtain rfl : m + 1 = n := by injection h
          obtain ⟨q, hq1, hq2⟩ := ih _ m hres
          exact ⟨q, by simpa using hq1, hq2⟩

lemma getTargetLoop_accepted_nonzero (lasttime : ℚ) :
    ∀ (polls : List TargetPoll) (tgt : Target) (n : ℕ) (t : Target),
      getTargetLoop lasttime tgt polls = TargetOutcome.accepted n t →
      t.num_exposures ≠ 0 := by
  intro polls
  induction polls with
  | nil =>
    intro tgt n t h
    exact TargetOutcome.noConfusion h
  | cons p ps ih =>
    intro tgt n t h
    simp only [getTargetLoop] at h
    generalize (if p.rcode = 0 then p.msg else tgt) = tgt1 at h
    split at h
    next hacc =>
      injection h with h1 h2
      rw [← h2]
      exact hacc.2
    · split at h
      · exact TargetOutcome.noConfusion h
      · cases hres : getTargetLoop lasttime tgt1 ps with
        | accepted m s =>
          rw [hres] at h
          simp only [TargetOutcome.bump] at h
          injection h with h1 h2
          rw [← h2]
          exact ih _ m s hres
        | pending s =>
          rw [hres] at h
          exact TargetOutcome.noConfusion h
        | skipped s =>
          rw [hres] at h
          exact TargetOutcome.noConfusion h
        | timedOut m =>
          rw [hres] at h
          exact TargetOutcome.noConfusion h

lemma getTargetLoop_raises (lasttime : ℚ) :
    ∀ (polls : List TargetPoll) (tgt : Target),
      (∀ p ∈ polls, ¬(p.rcode = 0 ∧ p.msg.num_exposures ≠ 0)) →
      (∃ p ∈ polls, 60 < p.tf - lasttime) →
      ∃ n, getTargetLoop lasttime tgt polls = TargetOutcome.timedOut n := by
  intro polls
  induction polls with
  | nil =>
    intro tgt hnone hex
    rcases hex with ⟨p, hp, -⟩
    exact absurd hp (List.not_mem_nil p)
  | cons p ps ih =>
    intro tgt hnone hex
    have hnp : ¬(p.rcode = 0 ∧ p.msg.num_exposures ≠ 0) := hnone p (by simp)
    simp only [getTargetLoop]
    have hcond : ¬(p.rcode = 0
        ∧ (if p.rcode = 0 then p.msg else tgt).num_exposures ≠ 0) := by
      intro hc
      have hc2 := hc.2
      rw [if_pos hc.1] at hc2
      exact hnp ⟨hc.1, hc2⟩
    rw [if_neg hcond]
    by_cases ht : 60 < p.tf - lasttime
    · rw [if_pos ht]
      exact ⟨0, rfl⟩
    · rw [if_neg ht]
      have hex2 : ∃ q ∈ ps, 60 < q.tf - lasttime := by
        rcases hex with ⟨q, hq, hqt⟩
        rcases List.mem_cons.mp hq with rfl | hq2
        · exact absurd hqt ht
        · exact ⟨q, hq2, hqt⟩
      obtain ⟨n, hn⟩ := ih (if p.rcode = 0 then p.msg else tgt)
        (fun q hq => hnone q (by simp [hq])) hex2
      exact ⟨n + 1, by rw [hn]; rfl⟩

/-- C1: in the target-acquisition polling loop, the fatal timeout is raised
only at a poll returning strictly more than 60 real-clock seconds after
polling began (never before); a poll that successfully delivers a target with
a non-zero exposure count terminates the loop immediately (at that very poll,
without raising); any accepted target has a non-zero exposure count; and a
run in which no poll is acceptable does raise once a poll comes back past the
60-second deadline. -/
theorem target_acquisition_protocol (lasttime : ℚ) (tgt : Target)
    (polls : List TargetPoll) :
    (∀ n, get_target_from_scheduler true lasttime tgt polls
        = TargetOutcome.timedOut n →
      ∃ p, polls[n]? = some p ∧ 60 < p.tf - lasttime)
    ∧ (∀ (p : TargetPoll) (ps : List TargetPoll), p.rcode = 0 →
        p.msg.num_exposures ≠ 0 →
        get_target_from_scheduler true lasttime tgt (p :: ps)
          = TargetOutcome.accepted 0 p.msg)
    ∧ (∀ n t, get_target_from_scheduler true lasttime tgt polls
          = TargetOutcome.accepted n t → t.num_exposures ≠ 0)
    ∧ ((∀ p ∈ polls, ¬(p.rcode = 0 ∧ p.msg.num_exposures ≠ 0)) →
        (∃ p ∈ polls, 60 < p.tf - lasttime) →
        ∃ n, get_target_from_scheduler true lasttime tgt polls
          = TargetOutcome.timedOut n) := by
  refine ⟨?_, ?_, ?_, ?_⟩
  · intro n h
    exact getTargetLoop_timedOut_elapsed lasttime polls tgt n
      (by simpa [get_target_from_scheduler] using h)
  · intro p ps hr hn
    simp [get_target_from_scheduler, getTargetLoop, hr, hn]
  · intro n t h
    exact getTargetLoop_accepted_nonzero lasttime polls tgt n t
      (by simpa [get_target_from_scheduler] using h)
  · intro hnone hex
    obtain ⟨n, hn⟩ := getTargetLoop_raises lasttime polls tgt hnone hex
    exact ⟨n, by simpa [get_target_from_scheduler] using hn⟩

/-- Witness for C1: a concrete run that times out strictly after 60 seconds,
and a concrete acceptable poll that terminates the loop immediately. -/
theorem target_acquisition_protocol_witness :
    (∃ p, ([pollTimeout] : List TargetPoll)[0]? = some p ∧ 60 < p.tf - 0)
    ∧ get_target_from_scheduler true 0 tgtZero (pollAccept :: [])
        = TargetOutcome.accepted 0 pollAccept.msg
    ∧ pollAccept.msg.num_exposures ≠ 0
    ∧ ∃ n, get_target_from_scheduler true 0 tgtZero [pollTimeout]
        = TargetOutcome.timedOut n := by
  have h1 : get_target_from_scheduler true 0 tgtZero [pollTimeout]
      = TargetOutcome.timedOut 0 := by
    norm_num [get_target_from_scheduler, getTargetLoop, pollTimeout, tgtZero,
      tgtB, TargetOutcome.bump]
  exact ⟨(target_acquisition_protocol 0 tgtZero [pollTimeout]).1 0 h1,
    (target_acquisition_protocol 0 tgtZero []).2.1 pollAccept [] rfl (by decide),
    (target_acquisition_protocol 0 tgtZero [pollAccept]).2.2.1 0 pollAccept.msg
      ((target_acquisition_protocol 0 tgtZero []).2.1 pollAccept [] rfl
        (by decide)),
    (target_acquisition_protocol 0 tgtZero [pollTimeout]).2.2.2
      (by decide)
      ⟨pollTimeout, List.mem_singleton.mpr rfl, by norm_num [pollTimeout]⟩⟩

lemma targetPropRows_counters (t : Target) :
    ∀ (n ctr i : ℕ),
      targetPropCounters (targetPropRows t ctr i n)
        = (List.range n).map (fun j => ctr + j) := by
  intro n
  induction n with
  | zero => intro ctr i; rfl
  | succ k ih =>
    intro ctr i
    have hcons : targetPropCounters (targetPropRows t ctr i (k + 1))
        = ctr :: targetPropCounters (targetPropRows t (ctr + 1) (i + 1) k) := rfl
    rw [hcons, ih, List.range_succ_eq_map]
    simp only [List.map_cons, List.map_map, Nat.add_zero]
    refine congrArg (List.cons ctr) ?_
    refine List.map_congr_left ?_
    intro a _
    simp [Function.comp]
    omega

lemma obsPropRows_counters (ip : InterestedProposal) :
    ∀ (n ctr i : ℕ),
      obsPropCounters (obsPropRows ip ctr i n)
        = (List.range n).map (fun j => ctr + j) := by
  intro n
  induction n with
  | zero => intro ctr i; rfl
  | succ k ih =>
    intro ctr i
    have hcons : obsPropCounters (obsPropRows ip ctr i (k + 1))
        = ctr :: obsPropCounters (obsPropRows ip (ctr + 1) (i + 1) k) := rfl
    rw [hcons, ih, List.range_succ_eq_map]
    simp only [List.map_cons, List.map_map, Nat.add_zero]
    refine congrArg (List.cons ctr) ?_
    refine List.map_congr_left ?_
    intro a _
    simp [Function.comp]
    omega

lemma gather_target_eq (s : SimState) (t : Target) :
    gather_proposal_history "target" (PHTopic.target t) s
      = { s with
            db_buffer := s.db_buffer ++
              targetPropRows t s.target_proposals_counted 0 t.num_proposals.toNat
            target_proposals_counted :=
              s.target_proposals_counted + t.num_proposals.toNat } := rfl

lemma gather_observation_eq (s : SimState) (ip : InterestedProposal) :
    gather_proposal_history "observation" (PHTopic.observation ip) s
      = { s with
            db_buffer := s.db_buffer ++
              obsPropRows ip s.observation_proposals_counted 0
                ip.num_proposals.toNat
            observation_proposals_counted :=
              s.observation_proposals_counted + ip.num_proposals.toNat } := rfl

/-- C4: each proposal-history call consumes exactly the next `N` counter
values of its stream (so every entry gets a fresh value), the counter ends at
its old value plus `N`, two sequential calls of the same kind produce strictly
increasing (hence non-overlapping) counter values, and neither `start_night`
nor `end_night` resets either counter. -/
theorem proposal_history_counters (s : SimState) (t : Target)
    (ip : InterestedProposal) (set_timestamp rise_timestamp : ℚ) (d : ℕ) :
    ((gather_proposal_history "target" (PHTopic.target t) s).target_proposals_counted
        = s.target_proposals_counted + t.num_proposals.toNat)
    ∧ (targetPropCounters
        ((gather_proposal_history "target" (PHTopic.target t) s).db_buffer.drop
          s.db_buffer.length)
        = (List.range t.num_proposals.toNat).map
            (fun j => s.target_proposals_counted + j))
    ∧ ((gather_proposal_history "observation"
          (PHTopic.observation ip) s).observation_proposals_counted
        = s.observation_proposals_counted + ip.num_proposals.toNat)
    ∧ (obsPropCounters
        ((gather_proposal_history "observation" (PHTopic.observation ip) s).db_buffer.drop
          s.db_buffer.length)
        = (List.range ip.num_proposals.toNat).map
            (fun j => s.observation_proposals_counted + j))
    ∧ (∀ (t2 : Target) (c1 c2 : ℕ),
        c1 ∈ targetPropCounters
          ((gather_proposal_history "target" (PHTopic.target t) s).db_buffer.drop
            s.db_buffer.length) →
        c2 ∈ targetPropCounters
          ((gather_proposal_history "target" (PHTopic.target t2)
              (gather_proposal_history "target" (PHTopic.target t) s)).db_buffer.drop
            (gather_proposal_history "target" (PHTopic.target t) s).db_buffer.length) →
        c1 < c2)
    ∧ (∀ (ip2 : InterestedProposal) (c1 c2 : ℕ),
        c1 ∈ obsPropCounters
          ((gather_proposal_history "observation" (PHTopic.observation ip) s).db_buffer.drop
            s.db_buffer.length) →
        c2 ∈ obsPropCounters
          ((gather_proposal_history "observation" (PHTopic.observation ip2)
              (gather_proposal_history "observation" (PHTopic.observation ip) s)).db_buffer.drop
            (gather_proposal_history "observation" (PHTopic.observation ip) s).db_buffer.length) →
        c1 < c2)
    ∧ ((start_night s set_timestamp rise_timestamp d).target_proposals_counted
        = s.target_proposals_counted)
    ∧ ((start_night s set_timestamp rise_timestamp d).observation_proposals_counted
        = s.observation_proposals_counted)
    ∧ ((end_night s).target_proposals_counted = s.target_proposals_counted)
    ∧ ((end_night s).observation_proposals_counted
        = s.observation_proposals_counted) := by
  refine ⟨rfl, ?_, rfl, ?_, ?_, ?_, ?_, ?_, rfl, rfl⟩
  · rw [gather_target_eq]
    simp only [List.drop_left]
    exact targetPropRows_counters t _ _ _
  · rw [gather_observation_eq]
    simp only [List.drop_left]
    exact obsPropRows_counters ip _ _ _
  · intro t2 c1 c2 h1 h2
    rw [gather_target_eq] at h1
    simp only [List.drop_left, targetPropRows_counters, List.mem_map,
      List.mem_range] at h1
    rw [gather_target_eq (gather_proposal_history "target" (PHTopic.target t) s) t2,
      gather_target_eq] at h2
    simp only [List.drop_left, targetPropRows_counters, List.mem_map,
      List.mem_range] at h2
    obtain ⟨j1, hj1, rfl⟩ := h1
    obtain ⟨j2, hj2, rfl⟩ := h2
    omega
  · intro ip2 c1 c2 h1 h2
    rw [gather_observation_eq] at h1
    simp only [List.drop_left, obsPropRows_counters, List.mem_map,
      List.mem_range] at h1
    rw [gather_observation_eq
        (gather_proposal_history "observation" (PHTopic.observation ip) s) ip2,
      gather_observation_eq] at h2
    simp only [List.drop_left, obsPropRows_counters, List.mem_map,
      List.mem_range] at h2
    obtain ⟨j1, hj1, rfl⟩ := h1
    obtain ⟨j2, hj2, rfl⟩ := h2
    omega
  · by_cases hd : d = 0 <;> simp [start_night, hd]
  · by_cases hd : d = 0 <;> simp [start_night, hd]

/-- Witness for C4: with fresh counters (both 1) and one-entry topics, the
first target-stream call consumes counter 1, the second consumes counter 2,
and 1 < 2 by the theorem. -/
theorem proposal_history_counters_witness :
    ((1 : ℕ) ∈ targetPropCounters
      ((gather_proposal_history "target" (PHTopic.target tgtP) simState0).db_buffer.drop
        simState0.db_buffer.length))
    ∧ ((2 : ℕ) ∈ targetPropCounters
      ((gather_proposal_history "target" (PHTopic.target tgtP)
          (gather_proposal_history "target" (PHTopic.target tgtP) simState0)).db_buffer.drop
        (gather_proposal_history "target" (PHTopic.target tgtP) simState0).db_buffer.length))
    ∧ (1 : ℕ) < 2 := by
  have hm1 : (1 : ℕ) ∈ targetPropCounters
      ((gather_proposal_history "target" (PHTopic.target tgtP) simState0).db_buffer.drop
        simState0.db_buffer.length) := by
    rw [gather_target_eq]
    simp only [List.drop_left, targetPropRows_counters]
    decide
  have hm2 : (2 : ℕ) ∈ targetPropCounters
      ((gather_proposal_history "target" (PHTopic.target tgtP)
          (gather_proposal_history "target" (PHTopic.target tgtP) simState0)).db_buffer.drop
        (gather_proposal_history "target" (PHTopic.target tgtP) simState0).db_buffer.length) := by
    rw [gather_target_eq (gather_proposal_history "target" (PHTopic.target tgtP) simState0) tgtP,
      gather_target_eq]
    simp only [List.drop_left, targetPropRows_counters]
    decide
  exact ⟨hm1, hm2,
    (proposal_history_counters simState0 tgtP ipStale 10 100 1).2.2.2.2.1
      tgtP 1 2 hm1 hm2⟩

/-- C2: on a night with positive downtime (given the physical ordering that
the clock is at or before the computed sunset and sunset is at or before the
end-of-night boundary), the clock immediately after `start_night` is exactly
the end-of-night boundary plus 60 seconds, and the per-night exposure-cycle
loop — whose body contains the target-acquisition polling — is never
entered. -/
theorem start_night_downtime (s : SimState) (set_timestamp rise_timestamp : ℚ)
    (d : ℕ) (hd : d ≠ 0)
    (h1 : s.time_handler.current_timestamp ≤ set_timestamp)
    (h2 : set_timestamp ≤ rise_timestamp) :
    ((start_night s set_timestamp rise_timestamp d).time_handler.current_timestamp
        = (start_night s set_timestamp rise_timestamp d).end_of_night
            + SECONDS_IN_MINUTE)
    ∧ ((start_night s set_timestamp rise_timestamp d).end_of_night
        = rise_timestamp)
    ∧ ¬ exposureCycleEntered (start_night s set_timestamp rise_timestamp d) := by
  have hend : (start_night s set_timestamp rise_timestamp d).end_of_night
      = rise_timestamp := by
    simp only [start_night]
    split <;> rfl
  have hcur : (start_night s set_timestamp rise_timestamp d).time_handler.current_timestamp
      = rise_timestamp + 60 := by
    simp only [start_night, TimeHandler.update_time]
    rw [if_pos hd]
    rw [abs_of_nonpos
      (by linarith : s.time_handler.current_timestamp - set_timestamp ≤ 0)]
    have h3 : s.time_handler.current_timestamp
        + -(s.time_handler.current_timestamp - set_timestamp) = set_timestamp := by
      ring
    rw [h3, abs_of_nonpos (by linarith : set_timestamp - rise_timestamp ≤ 0),
      SECONDS_IN_MINUTE]
    ring
  refine ⟨by rw [hcur, hend, SECONDS_IN_MINUTE], hend, ?_⟩
  unfold exposureCycleEntered
  rw [hcur, hend]
  linarith

/-- Witness for C2 at a concrete state and night boundaries. -/
theorem start_night_downtime_witness :
    ((start_night simState0 10 100 1).time_handler.current_timestamp
        = (start_night simState0 10 100 1).end_of_night + SECONDS_IN_MINUTE)
    ∧ ((start_night simState0 10 100 1).end_of_night = 100)
    ∧ ¬ exposureCycleEntered (start_night simState0 10 100 1) :=
  start_night_downtime simState0 10 100 1 (by decide)
    (by norm_num [simState0, th0]) (by norm_num)

/-- C6: on a night with zero downtime (given the clock is at or before the
computed sunset), the clock immediately after `start_night` equals the sunset
timestamp exactly, the end-of-night boundary is recorded, and the
exposure-cycle loop is entered at least once whenever the boundary is strictly
later than sunset. -/
theorem start_night_no_downtime (s : SimState)
    (set_timestamp rise_timestamp : ℚ)
    (h1 : s.time_handler.current_timestamp ≤ set_timestamp) :
    ((start_night s set_timestamp rise_timestamp 0).time_handler.current_timestamp
        = set_timestamp)
    ∧ ((start_night s set_timestamp rise_timestamp 0).end_of_night
        = rise_timestamp)
    ∧ (set_timestamp < rise_timestamp →
        exposureCycleEntered (start_night s set_timestamp rise_timestamp 0)) := by
  have hcur : (start_night s set_timestamp rise_timestamp 0).time_handler.current_timestamp
      = set_timestamp := by
    simp only [start_night, TimeHandler.update_time, ne_eq, not_true_eq_false,
      if_false, reduceIte]
    rw [abs_of_nonpos
      (by linarith : s.time_handler.current_timestamp - set_timestamp ≤ 0)]
    ring
  have hend : (start_night s set_timestamp rise_timestamp 0).end_of_night
      = rise_timestamp := by
    simp only [start_night]
    split <;> rfl
  refine ⟨hcur, hend, ?_⟩
  intro hlt
  unfold exposureCycleEntered
  rw [hcur, hend]
  exact hlt

/-- Witness for C6 at a concrete state and night boundaries. -/
theorem start_night_no_downtime_witness :
    ((start_night simState0 10 100 0).time_handler.current_timestamp = 10)
    ∧ ((start_night simState0 10 100 0).end_of_night = 100)
    ∧ exposureCycleEntered (start_night simState0 10 100 0) :=
  ⟨(start_night_no_downtime simState0 10 100 (by norm_num [simState0, th0])).1,
   (start_night_no_downtime simState0 10 100 (by norm_num [simState0, th0])).2.1,
   (start_night_no_downtime simState0 10 100 (by norm_num [simState0, th0])).2.2
     (by norm_num)⟩

/-- C10: with the no-scheduler option (`wait_for_scheduler` false) the
persistence step of an exposure cycle appends nothing — no target,
observation, slew, exposure or proposal-history rows — whatever the target
id; and any cycle that does change the buffer must have had
`wait_for_scheduler` true and a non-sentinel target id. -/
theorem persist_requires_scheduler_and_target (s : SimState) (wfs : Bool)
    (target : Target) (observation : Observation) (ip : InterestedProposal)
    (slew_rows exposure_rows : List (String × Row)) :
    (persistCycle s false target observation ip slew_rows exposure_rows = s)
    ∧ (observation.targetId = -1 →
        persistCycle s wfs target observation ip slew_rows exposure_rows = s)
    ∧ ((persistCycle s wfs target observation ip slew_rows exposure_rows).db_buffer
          ≠ s.db_buffer →
        wfs = true ∧ observation.targetId ≠ -1) := by
  refine ⟨by simp [persistCycle], ?_, ?_⟩
  · intro h
    simp [persistCycle, h]
  · intro hne
    by_cases hc : wfs = true ∧ observation.targetId ≠ -1
    · exact hc
    · exact absurd
        (congrArg SimState.db_buffer
          (by simp [persistCycle, hc] :
            persistCycle s wfs target observation ip slew_rows exposure_rows = s))
        hne

/-- Witness for C10: a concrete persisted cycle (scheduler on, target id 3)
does change the buffer, and the theorem recovers both guard conditions. -/
theorem persist_requires_scheduler_and_target_witness :
    true = true ∧ obsB.targetId ≠ -1 :=
  (persist_requires_scheduler_and_target simState0 true tgtB obsB ipB [] []).2.2
    (by
      rw [show (persistCycle simState0 true tgtB obsB ipB [] []).db_buffer
          = [("target_history", Row.targetHist tgtB),
             ("observation_history", Row.obsHist obsB)] from rfl]
      simp [simState0])

/-- C5 (code evaluation): at a concrete accepted target, the sequencer's
return payload is the bare observation record (with the updated sequencer
state) — there are no slew or exposure sub-records in the return value,
although the caller `Simulator.run` (line 240) unpacks three components. -/
theorem observe_target_single_return :
    (Sequencer.init.observe_target (some tgtB) th0).2
      = Except.ok
          ({ targets_received := 1, observations_made := 1
             observation := obsB, slew_time := 6, visit_time := 34 }, obsB) := by
  show Except.ok _ = _
  norm_num [Sequencer.observe_target, Sequencer.init, TimeHandler.update_time,
    th0, tgtB, obsB]

/-- C7 counterexample: a cycle whose single interest poll fails (rcode 1) and
comes back 6 real-clock seconds after the deadline start times out, leaving
the stale one-entry message in the topic struct; the history contribution the
driver then builds from that struct is not empty. -/
theorem interest_timeout_nonempty_contribution :
    interestLoop 0 ipStale [⟨1, ipB, 6⟩] = InterestOutcome.timedOut ipStale
    ∧ ((gather_proposal_history "observation" (PHTopic.observation ipStale)
          simState0).db_buffer.drop simState0.db_buffer.length) ≠ [] := by
  constructor
  · norm_num [interestLoop]
  · rw [gather_observation_eq]
    simp [List.drop_left, obsPropRows, ipStale, ipB, simState0]

lemma interestLoop_allfail (lastconfigtime : ℚ) :
    ∀ (polls : List InterestPoll) (ip0 : InterestedProposal),
      (∀ p ∈ polls, p.rcode ≠ 0) →
      ∀ ipf, interestLoop lastconfigtime ip0 polls
          = InterestOutcome.timedOut ipf → ipf = ip0 := by
  intro polls
  induction polls with
  | nil =>
    intro ip0 hall ipf h
    exact InterestOutcome.noConfusion h
  | cons p ps ih =>
    intro ip0 hall ipf h
    have hr : p.rcode ≠ 0 := hall p (by simp)
    simp only [interestLoop, if_neg hr] at h
    rw [if_neg (by intro hc; exact hr hc.1)] at h
    split at h
    · injection h with h1
      exact h1.symm
    · exact ih ip0 (fun q hq => hall q (by simp [hq])) ipf h

/-- C7 amended: an interest-feedback timeout is non-fatal — the loop's only
outcomes are received / timed-out / still-polling, with no raising case, and a
window in which every poll fails leaves the topic struct unchanged.  The
cycle's history contribution is therefore the rows built from the message the
struct already held: empty exactly when that message has a non-positive entry
count (e.g. a freshly zeroed topic), but non-empty when a stale message
remains from an earlier cycle. -/
theorem interest_timeout_soft (lastconfigtime : ℚ)
    (ip0 : InterestedProposal) (polls : List InterestPoll) (s : SimState)
    (hall : ∀ p ∈ polls, p.rcode ≠ 0) :
    (∀ ipf, interestLoop lastconfigtime ip0 polls
        = InterestOutcome.timedOut ipf → ipf = ip0)
    ∧ ((gather_proposal_history "observation" (PHTopic.observation ip0)
          s).db_buffer.drop s.db_buffer.length
        = obsPropRows ip0 s.observation_proposals_counted 0
            ip0.num_proposals.toNat)
    ∧ (ip0.num_proposals ≤ 0 →
        (gather_proposal_history "observation" (PHTopic.observation ip0)
          s).db_buffer.drop s.db_buffer.length = []) := by
  refine ⟨interestLoop_allfail lastconfigtime polls ip0 hall, ?_, ?_⟩
  · rw [gather_observation_eq]
    simp [List.drop_left]
  · intro hnp
    rw [gather_observation_eq]
    simp only [List.drop_left]
    rw [Int.toNat_of_nonpos hnp]
    rfl

/-- Witness for C7 (amended) at a freshly zeroed topic: the contribution of a
timed-out cycle is empty. -/
theorem interest_timeout_soft_witness :
    ((gather_proposal_history "observation" (PHTopic.observation ipB)
        simState0).db_buffer.drop simState0.db_buffer.length
      = obsPropRows ipB simState0.observation_proposals_counted 0
          ipB.num_proposals.toNat)
    ∧ ((gather_proposal_history "observation" (PHTopic.observation ipB)
        simState0).db_buffer.drop simState0.db_buffer.length = []) := by
  have h := interest_timeout_soft 0 ipB [⟨1, ipStale, 6⟩] simState0
    (by
      intro p hp
      rcases List.mem_singleton.mp hp with rfl
      decide)
  exact ⟨h.2.1, h.2.2 (by norm_num [ipB])⟩

/-- C9 counterexample: the field-retrieval loop terminates on the message
sequence -1, 7, -1 even though no sentinel arrives immediately after another
sentinel — the `end_fields` flag set by the first sentinel is never reset. -/
theorem field_loop_nonadjacent_sentinels_terminate :
    fieldLoop (fldMsg 5) [] false fpolls = some [fldMsg 7]
    ∧ ¬ ∃ i : ℕ, (fpolls.map (fun p => p.msg.ID))[i]? = some (-1)
        ∧ (fpolls.map (fun p => p.msg.ID))[i + 1]? = some (-1) := by
  constructor
  · decide
  · rintro ⟨i, h1, h2⟩
    have hm : fpolls.map (fun p => p.msg.ID) = [-1, 7, -1] := by decide
    rw [hm] at h1 h2
    match i, h1, h2 with
    | 0, h1, h2 => simp at h2
    | 1, h1, h2 => simp at h1
    | n + 2, h1, h2 => simp at h2

lemma fieldLoop_terminates_iff :
    ∀ (polls : List FieldPoll) (fld : FieldTopic) (fs : List FieldTopic)
      (ef : Bool), (∀ p ∈ polls, p.rcode = 0) →
      ((fieldLoop fld fs ef polls).isSome ↔
        (if ef then 1 else 2) ≤ polls.countP (fun p => p.msg.ID = -1)) := by
  intro polls
  induction polls with
  | nil =>
    intro fld fs ef hall
    simp [fieldLoop]
    cases ef <;> simp
  | cons p ps ih =>
    intro fld fs ef hall
    have hr : p.rcode = 0 := hall p (by simp)
    have hall' : ∀ q ∈ ps, q.rcode = 0 := fun q hq => hall q (by simp [hq])
    simp only [fieldLoop, if_pos hr, List.countP_cons]
    by_cases h0 : p.msg.ID = 0
    · rw [if_pos h0]
      have hpred : decide (p.msg.ID = -1) = false := by
        simp [h0]
      rw [hpred]
      simpa using ih p.msg fs ef hall'
    · rw [if_neg h0]
      by_cases hs : p.rcode = 0 ∧ p.msg.ID = -1
      · rw [if_pos hs]
        have hpred : decide (p.msg.ID = -1) = true := by simp [hs.2]
        rw [hpred]
        cases ef with
        | true => simp
        | false =>
          have hiff := ih p.msg fs true hall'
          simp only [Bool.false_eq_true, if_false, if_true, eq_self_iff_true]
            at hiff ⊢
          rw [hiff]
          omega
      · rw [if_neg hs]
        have hpred : decide (p.msg.ID = -1) = false := by
          simp only [decide_eq_false_iff_not]
          intro hid
          exact hs ⟨hr, hid⟩
        rw [hpred]
        simpa using ih p.msg (fs ++ [p.msg]) ef hall'

lemma fieldLoop_mem :
    ∀ (polls : List FieldPoll) (fld : FieldTopic) (fs : List FieldTopic)
      (ef : Bool) (out : List FieldTopic), (∀ p ∈ polls, p.rcode = 0) →
      fieldLoop fld fs ef polls = some out →
      ∀ x ∈ out, x ∈ fs ∨ (x.ID ≠ 0 ∧ x.ID ≠ -1) := by
  intro polls
  induction polls with
  | nil =>
    intro fld fs ef out hall h
    exact Option.noConfusion h
  | cons p ps ih =>
    intro fld fs ef out hall h x hx
    have hr : p.rcode = 0 := hall p (by simp)
    have hall' : ∀ q ∈ ps, q.rcode = 0 := fun q hq => hall q (by simp [hq])
    simp only [fieldLoop, if_pos hr] at h
    by_cases h0 : p.msg.ID = 0
    · rw [if_pos h0] at h
      exact ih p.msg fs ef out hall' h x hx
    · rw [if_neg h0] at h
      by_cases hs : p.rcode = 0 ∧ p.msg.ID = -1
      · rw [if_pos hs] at h
        cases ef with
        | true =>
          injection h with h1
          subst h1
          exact Or.inl hx
        | false =>
          exact ih p.msg fs true out hall' h x hx
      · rw [if_neg hs] at h
        rcases ih p.msg (fs ++ [p.msg]) ef out hall' h x hx with hmem | hprop
        · rcases List.mem_append.mp hmem with hmem' | hmem'
          · exact Or.inl hmem'
          · rcases List.mem_singleton.mp hmem' with rfl
            exact Or.inr ⟨h0, fun hid => hs ⟨hr, hid⟩⟩
        · exact Or.inr hprop

/-- C9 amended: over a sequence of successfully received messages, the
start-up field-retrieval loop terminates exactly when the second sentinel id
(-1) message arrives — consecutive or not, since the sentinel flag is never
reset — and neither sentinel nor zero ids are ever added to the collected
field set. -/
theorem field_catalog_retrieval (fld : FieldTopic) (polls : List FieldPoll)
    (hall : ∀ p ∈ polls, p.rcode = 0) :
    ((fieldLoop fld [] false polls).isSome ↔
      2 ≤ polls.countP (fun p => p.msg.ID = -1))
    ∧ (∀ out, fieldLoop fld [] false polls = some out →
        ∀ x ∈ out, x.ID ≠ 0 ∧ x.ID ≠ -1) := by
  constructor
  · simpa using fieldLoop_terminates_iff polls fld [] false hall
  · intro out hout x hx
    rcases fieldLoop_mem polls fld [] false out hall hout x hx with h | h
    · exact absurd h (List.not_mem_nil x)
    · exact h

/-- Witness for C9 (amended) on the concrete sequence -1, 7, -1: the loop
terminates (two sentinels received) and the one collected field has a
non-zero, non-sentinel id. -/
theorem field_catalog_retrieval_witness :
    (fieldLoop (fldMsg 5) [] false fpolls).isSome
    ∧ ((fldMsg 7).ID ≠ 0 ∧ (fldMsg 7).ID ≠ -1) := by
  have h := field_catalog_retrieval (fldMsg 5) fpolls (by decide)
  exact ⟨h.1.mpr (by decide),
    h.2 [fldMsg 7] (by decide) (fldMsg 7) (by decide)⟩

end SimsOcs
